import Mathlib

/-!
Shallow embedding of the order-management service in `src/main.py`
(FastAPI app "Order Management with 2FA").

Pure data is modelled directly.  The SQLAlchemy store is a `DB` record
threaded explicitly through every endpoint.  Each call to the external
Infobip 2FA provider is modelled by a `ProviderResp` argument carrying
the provider's answer for that one call (`error` covers both transport
failures and non-2xx responses, which `Infobip2FAClient` turns into an
HTTP 503).  Python floats (book prices) are modelled as rationals, and
Python `int()` as truncation toward zero.  Wall-clock instants are
naturals (seconds).
-/

namespace BookOrder

/-- Payment methods (`PaymentMethod` enum, main.py lines 78-82). -/
inductive PaymentMethod
  | cash_on_delivery
  | bkash
  | nagad
  | card
deriving DecidableEq, Repr

/-- Order statuses (`OrderStatus` enum, main.py lines 84-90). -/
inductive OrderStatus
  | pending
  | verified
  | processing
  | shipped
  | delivered
  | cancelled
deriving DecidableEq, Repr

/-- A line item (`Book` pydantic model, main.py lines 92-96).  `price` is a
Python float, modelled as a rational. -/
structure Book where
  id : String
  title : String
  price : ℚ
  quantity : ℕ
deriving DecidableEq, Repr

/-- Request body of `/orders/initiate` (`OrderRequest`, main.py lines 98-108). -/
structure OrderRequest where
  phone_number : String
  address : String
  payment_method : PaymentMethod
  books : List Book
deriving DecidableEq, Repr

/-- Decides the pydantic phone pattern `^\+?[0-9]\d\x7b1,14\x7d$`:
an optional leading `+` followed by 2 to 15 digits. -/
def validPhone (s : String) : Bool :=
  let digits := match s.data with
    | '+' :: rest => rest
    | l => l
  digits.all Char.isDigit && decide (2 ≤ digits.length) && decide (digits.length ≤ 15)

/-- The pydantic validation on `OrderRequest` (main.py lines 99-108):
phone pattern, address of length at least 5, and at least one book. -/
def validRequest (r : OrderRequest) : Bool :=
  validPhone r.phone_number && decide (5 ≤ r.address.length) && !r.books.isEmpty

/-- The JSON payload stored in `VerificationSession.order_data`
(main.py lines 285-291). -/
structure OrderData where
  phone_number : String
  address : String
  payment_method : PaymentMethod
  books : List Book
  total_amount : ℚ
deriving DecidableEq, Repr

/-- A row of `verification_sessions` (main.py lines 60-71).  `pin_id` is an
`Option` because `/orders/resend-code` assigns `sms_result.get("pinId")`
to it without a presence check (main.py line 425). -/
structure VerificationSession where
  session_token : String
  phone_number : String
  pin_id : Option String
  attempts : ℕ
  verified : Bool
  expires_at : ℕ
  created_at : ℕ
  order_data : OrderData
deriving DecidableEq, Repr

/-- A row of `orders` (main.py lines 45-58). -/
structure Order where
  id : ℕ
  phone_number : String
  address : String
  payment_method : PaymentMethod
  payment_status : String
  book_list : List Book
  total_amount : ℤ
  order_status : OrderStatus
  created_at : ℕ
  updated_at : ℕ
  verified : Bool
deriving DecidableEq, Repr

/-- The relational store: the two tables plus the autoincrement counter
backing `Order.id`. -/
structure DB where
  sessions : List VerificationSession
  orders : List Order
  nextOrderId : ℕ
deriving DecidableEq, Repr

/-- Result of `Infobip2FAClient.send_pin` when it returns a JSON body:
`sms_result.get("pinId")` may be absent (main.py line 265). -/
structure SendPinResult where
  pinId : Option String
deriving DecidableEq, Repr

/-- Result of `Infobip2FAClient.verify_pin` when it returns a JSON body:
`verify_result.get("verified")` and `verify_result.get("attemptsRemaining", 0)`
(main.py lines 334, 338). -/
structure VerifyPinResult where
  verified : Bool
  attemptsRemaining : Option ℕ
deriving DecidableEq, Repr

/-- Outcome of one call to the external 2FA provider.  `error` covers a
transport exception as well as a non-2xx status (which the client raises
as HTTP 503, main.py lines 160-164 and 185-189). -/
inductive ProviderResp (α : Type)
  | ok (result : α)
  | error
deriving DecidableEq, Repr

/-- The machine-readable error kinds the endpoints produce (spec section 7
taxonomy).  `internalError` models an unhandled Python exception escaping the
endpoint (HTTP 500): in `update_order_status` the parameter `status`
shadows the imported fastapi `status` module, so the raises at main.py
lines 515-518 and 531-534 themselves fail with `AttributeError`. -/
inductive ApiError
  | rateLimited
  | providerUnavailable
  | sessionInvalid
  | alreadyConsumed
  | invalidCode (attemptsRemaining : ℕ)
  | attemptsExhausted
  | invalidTransition (current requested : OrderStatus)
  | notFoundOrUnauthorized
  | cannotCancel
  | internalError
deriving DecidableEq, Repr

/-- Successful body of `/orders/initiate` (main.py lines 297-302). -/
structure InitiateOk where
  session_token : String
  expires_in_seconds : ℕ
  total_amount : ℚ
deriving DecidableEq, Repr

/-- Python `int()` on a numeric value truncates toward zero
(main.py line 370, `int(order_data["total_amount"])`). -/
def pyInt (q : ℚ) : ℤ :=
  if 0 ≤ q.num then ((q.num.toNat / q.den : ℕ) : ℤ) else -(((-q.num).toNat / q.den : ℕ) : ℤ)

/-- Total amount of an order request, main.py line 260:
`sum(book.price * book.quantity for book in order.books)`. -/
def orderTotal (books : List Book) : ℚ :=
  (books.map (fun book => book.price * (book.quantity : ℚ))).sum

/-- The session-row predicate used by every token lookup in main.py
(lines 213-216, 313-316, 405-408): token equality and `expires_at`
strictly in the future. -/
def liveTok (tok : String) (now : ℕ) (s : VerificationSession) : Bool :=
  decide (s.session_token = tok ∧ now < s.expires_at)

/-- Replace the first element satisfying `p` by its image under `f`
(the SQLAlchemy identity-map mutates exactly the row `.first()` returned). -/
def modifyFirst (p : α → Bool) (f : α → α) : List α → List α
  | [] => []
  | x :: xs => if p x then f x :: xs else x :: modifyFirst p f xs

/-- Remove the first element satisfying `p` (`db.delete(session)` deletes
exactly the row the query returned). -/
def deleteFirst (p : α → Bool) : List α → List α
  | [] => []
  | x :: xs => if p x then xs else x :: deleteFirst p xs

/-- Mutate (in place) the first session row matching `p`. -/
def DB.modifySession (db : DB) (p : VerificationSession → Bool)
    (f : VerificationSession → VerificationSession) : DB :=
  { db with sessions := modifyFirst p f db.sessions }

/-- Delete the first session row matching `p`. -/
def DB.deleteSession (db : DB) (p : VerificationSession → Bool) : DB :=
  { db with sessions := deleteFirst p db.sessions }

/-- Mutate (in place) the first order row matching `p`. -/
def DB.modifyOrder (db : DB) (p : Order → Bool) (f : Order → Order) : DB :=
  { db with orders := modifyFirst p f db.orders }

/-- Dependency `get_current_session` (main.py lines 207-224): look up a
session by bearer token whose `expires_at` is still in the future; `none`
is raised as 401 "Invalid or expired session".  `/orders/verify` and
`/orders/resend-code` inline the textually identical query. -/
def get_current_session (db : DB) (token : String) (now : ℕ) :
    Option VerificationSession :=
  db.sessions.find? (liveTok token now)

/-- The rate-limit count of `/orders/initiate` (main.py lines 248-251): the
number of session rows currently in the store for this phone number with
`created_at > now - 1 hour`.  Rows deleted by `/orders/verify` are gone
from the store and hence not counted. -/
def recentSessionCount (db : DB) (phone : String) (now : ℕ) : ℕ :=
  (db.sessions.filter
    (fun s => decide (s.phone_number = phone ∧ now < s.created_at + 3600))).length

/-- Endpoint `POST /orders/initiate` (main.py lines 242-302).  `send` is the
provider's answer to `two_fa_client.send_pin`; `newToken` stands for the
fresh `secrets.token_urlsafe(32)`.  Note that the "missing pinId" raise at
main.py lines 267-271 sits inside the `try`, so it is re-raised by the
generic handler as the same 503 as a provider failure. -/
def initiate_order (order : OrderRequest) (now : ℕ)
    (send : ProviderResp SendPinResult) (newToken : String) (db : DB) :
    Except ApiError InitiateOk × DB :=
  if 5 ≤ recentSessionCount db order.phone_number now then
    (.error .rateLimited, db)
  else
    let total_amount := orderTotal order.books
    match send with
    | .error => (.error .providerUnavailable, db)
    | .ok sms =>
      match sms.pinId with
      | none => (.error .providerUnavailable, db)
      | some pin_id =>
        let session : VerificationSession :=
          { session_token := newToken
            phone_number := order.phone_number
            pin_id := some pin_id
            attempts := 0
            verified := false
            expires_at := now + 600
            created_at := now
            order_data :=
              { phone_number := order.phone_number
                address := order.address
                payment_method := order.payment_method
                books := order.books
                total_amount := total_amount } }
        (.ok { session_token := newToken
               expires_in_seconds := 600
               total_amount := total_amount },
         { db with sessions := db.sessions ++ [session] })

/-- The `Order` row built by `/orders/verify` on success (main.py
lines 365-373): fields copied from the session's captured intent, total
truncated by `int()`, status `verified`, `verified=True`, column defaults
`payment_status="pending"` and `created_at`/`updated_at` now. -/
def materialize (db : DB) (session : VerificationSession) (now : ℕ) : Order :=
  { id := db.nextOrderId
    phone_number := session.order_data.phone_number
    address := session.order_data.address
    payment_method := session.order_data.payment_method
    payment_status := "pending"
    book_list := session.order_data.books
    total_amount := pyInt session.order_data.total_amount
    order_status := .verified
    created_at := now
    updated_at := now
    verified := true }

/-- Endpoint `POST /orders/verify` (main.py lines 304-395).  `verify` is the
provider's answer to `two_fa_client.verify_pin` for `pin_code`.  On a
not-verified answer the attempt increment is committed first; the session
is then deleted when the provider-reported remaining attempts (defaulted
to 0 when absent) reach 0.  On success the order is inserted and the
session row deleted. -/
def verify_and_create_order (session_token pin_code : String) (now : ℕ)
    (verify : ProviderResp VerifyPinResult) (db : DB) :
    Except ApiError Order × DB :=
  match get_current_session db session_token now with
  | none => (.error .sessionInvalid, db)
  | some session =>
    if session.verified then (.error .alreadyConsumed, db)
    else
      match verify with
      | .error => (.error .providerUnavailable, db)
      | .ok res =>
        if res.verified = false then
          let db1 := db.modifySession (liveTok session_token now)
            (fun s => { s with attempts := s.attempts + 1 })
          let attempts_remaining := res.attemptsRemaining.getD 0
          if attempts_remaining = 0 then
            (.error .attemptsExhausted, db1.deleteSession (liveTok session_token now))
          else
            (.error (.invalidCode attempts_remaining), db1)
        else
          let order := materialize db session now
          let db1 := { db with orders := db.orders ++ [order]
                               nextOrderId := db.nextOrderId + 1 }
          (.ok order, db1.deleteSession (liveTok session_token now))

/-- Endpoint `POST /orders/resend-code` (main.py lines 397-438): on a live
unverified session, store the provider's new `pinId` (unchecked `get`),
reset `attempts` to 0 and push `expires_at` out by 10 minutes. -/
def resend_verification_code (session_token : String) (now : ℕ)
    (send : ProviderResp SendPinResult) (db : DB) : Except ApiError ℕ × DB :=
  match get_current_session db session_token now with
  | none => (.error .sessionInvalid, db)
  | some session =>
    if session.verified then (.error .alreadyConsumed, db)
    else
      match send with
      | .error => (.error .providerUnavailable, db)
      | .ok sms =>
        (.ok 600,
         db.modifySession (liveTok session_token now)
           (fun s => { s with pin_id := sms.pinId, attempts := 0,
                              expires_at := now + 600 }))

/-- The transition dictionary of `update_order_status` (main.py
lines 524-528), with the `.get(current_status, [])` default for the
states not in the dictionary. -/
def valid_transitions (current : OrderStatus) : List OrderStatus :=
  match current with
  | .verified => [.processing, .cancelled]
  | .processing => [.shipped, .cancelled]
  | .shipped => [.delivered]
  | _ => []

/-- Endpoint `PUT /orders/.../status` (main.py lines 499-540).  The order
lookup requires both the id and the session's phone number.  Because the
parameter `status` shadows the fastapi `status` module, the raises at
lines 515-518 (order not found) and 531-534 (invalid transition) fail
with `AttributeError`, surfacing as HTTP 500: modelled `internalError`. -/
def update_order_status (order_id : ℕ) (new_status : OrderStatus)
    (token : String) (now : ℕ) (db : DB) : Except ApiError Unit × DB :=
  match get_current_session db token now with
  | none => (.error .sessionInvalid, db)
  | some session =>
    match db.orders.find?
        (fun o => decide (o.id = order_id ∧ o.phone_number = session.phone_number)) with
    | none => (.error .internalError, db)
    | some order =>
      if new_status ∈ valid_transitions order.order_status then
        (.ok (),
         db.modifyOrder
           (fun o => decide (o.id = order_id ∧ o.phone_number = session.phone_number))
           (fun o => { o with order_status := new_status, updated_at := now }))
      else
        (.error .internalError, db)

/-- Endpoint `DELETE /orders/...` (main.py lines 542-572): cancel the order
unless it is shipped or delivered.  No shadowing here, so the 404 and 400
raises work as written. -/
def cancel_order (order_id : ℕ) (token : String) (now : ℕ) (db : DB) :
    Except ApiError Unit × DB :=
  match get_current_session db token now with
  | none => (.error .sessionInvalid, db)
  | some session =>
    match db.orders.find?
        (fun o => decide (o.id = order_id ∧ o.phone_number = session.phone_number)) with
    | none => (.error .notFoundOrUnauthorized, db)
    | some order =>
      if order.order_status = .shipped ∨ order.order_status = .delivered then
        (.error .cannotCancel, db)
      else
        (.ok (),
         db.modifyOrder
           (fun o => decide (o.id = order_id ∧ o.phone_number = session.phone_number))
           (fun o => { o with order_status := .cancelled, updated_at := now }))

/-- Transition table exactly as the spec words it (spec section 4.2):
`verified: \x7bprocessing, cancelled\x7d; processing: \x7bshipped, cancelled\x7d;
shipped: \x7bdelivered\x7d; delivered: \x7b\x7d; cancelled: \x7b\x7d`; a pair not listed
is not in the table. -/
def claimedAllowed (current requested : OrderStatus) : Bool :=
  match current with
  | .verified => requested = OrderStatus.processing ∨ requested = OrderStatus.cancelled
  | .processing => requested = OrderStatus.shipped ∨ requested = OrderStatus.cancelled
  | .shipped => requested = OrderStatus.delivered
  | _ => false

end BookOrder

namespace BookOrder

/-! ### Generic list toolkit -/

theorem find_split {α} {p : α → Bool} :
    ∀ {l : List α} {a : α}, l.find? p = some a →
      ∃ pre post, l = pre ++ a :: post ∧ ∀ x ∈ pre, p x = false := by
  intro l
  induction l with
  | nil => intro a h; simp [List.find?] at h
  | cons x xs ih =>
    intro a h
    by_cases hx : p x
    · refine ⟨[], xs, ?_, by simp⟩
      simp [List.find?, hx] at h
      simp [h]
    · simp only [List.find?, Bool.not_eq_true] at hx
      rw [List.find?, hx] at h
      obtain ⟨pre, post, hl, hpre⟩ := ih h
      refine ⟨x :: pre, post, by simp [hl], ?_⟩
      intro y hy
      rcases List.mem_cons.mp hy with rfl | hy
      · exact hx
      · exact hpre y hy

theorem find_none {α} {p : α → Bool} {l : List α}
    (h : ∀ x ∈ l, p x = false) : l.find? p = none := by
  induction l with
  | nil => rfl
  | cons x xs ih =>
    rw [List.find?, h x (by simp)]
    exact ih (fun y hy => h y (by simp [hy]))

theorem modifyFirst_split {α} (p : α → Bool) (f : α → α) (pre post : List α) (a : α)
    (hpre : ∀ x ∈ pre, p x = false) (ha : p a = true) :
    modifyFirst p f (pre ++ a :: post) = pre ++ f a :: post := by
  induction pre with
  | nil => simp [modifyFirst, ha]
  | cons x xs ih =>
    have hx : p x = false := hpre x (by simp)
    simp only [List.cons_append, modifyFirst, hx]
    simp only [Bool.false_eq_true, if_false, List.cons.injEq, true_and]
    exact ih (fun y hy => hpre y (by simp [hy]))

theorem deleteFirst_split {α} (p : α → Bool) (pre post : List α) (a : α)
    (hpre : ∀ x ∈ pre, p x = false) (ha : p a = true) :
    deleteFirst p (pre ++ a :: post) = pre ++ post := by
  induction pre with
  | nil => simp [deleteFirst, ha]
  | cons x xs ih =>
    have hx : p x = false := hpre x (by simp)
    simp only [List.cons_append, deleteFirst, hx]
    simp only [Bool.false_eq_true, if_false, List.cons.injEq, true_and]
    exact ih (fun y hy => hpre y (by simp [hy]))

theorem countP_split {α} {p : α → Bool} {pre post : List α} {a : α}
    (h : (pre ++ a :: post).countP p ≤ 1) (ha : p a = true) :
    ∀ x ∈ pre ++ post, p x = false := by
  rw [List.countP_append, List.countP_cons, ha] at h
  simp only [eq_self_iff_true, if_true] at h
  have hpre : pre.countP p = 0 := by omega
  have hpost : post.countP p = 0 := by omega
  intro x hx
  rcases List.mem_append.mp hx with hx | hx
  · by_contra hc
    have := List.countP_eq_zero.mp hpre x hx
    simp [Bool.not_eq_false] at hc
    exact absurd hc this
  · by_contra hc
    have := List.countP_eq_zero.mp hpost x hx
    simp [Bool.not_eq_false] at hc
    exact absurd hc this

end BookOrder

namespace BookOrder

/-! ### Facts about the session lookup and the confirm endpoint -/

theorem get_current_session_spec {db : DB} {tok : String} {now : ℕ}
    {s : VerificationSession} (h : get_current_session db tok now = some s) :
    s ∈ db.sessions ∧ s.session_token = tok ∧ now < s.expires_at := by
  have hp : liveTok tok now s = true := List.find?_some h
  have hm : s ∈ db.sessions := List.mem_of_find?_eq_some h
  have := of_decide_eq_true hp
  exact ⟨hm, this.1, this.2⟩

theorem get_current_session_none {db : DB} {tok : String} {now : ℕ}
    (h : ∀ s ∈ db.sessions, s.session_token ≠ tok) :
    get_current_session db tok now = none := by
  apply find_none
  intro x hx
  exact decide_eq_false (fun hc => h x hx hc.1)

/-- Once no session row carries the token, `confirm` fails `SessionInvalid`
with no state change, whatever the pin, clock or provider answer. -/
theorem second_confirm_invalid {db : DB} {tok : String}
    (h : ∀ s ∈ db.sessions, s.session_token ≠ tok) (pin : String) (now : ℕ)
    (resp : ProviderResp VerifyPinResult) :
    verify_and_create_order tok pin now resp db = (.error .sessionInvalid, db) := by
  unfold verify_and_create_order
  rw [get_current_session_none h]

/-- Computation of the confirm endpoint on a live unverified session when
the provider reports the code as not verified. -/
theorem verify_not_verified_eq (tok pin : String) (now : ℕ) (rem : Option ℕ)
    (db : DB) (s : VerificationSession)
    (hfind : get_current_session db tok now = some s) (hv : s.verified = false) :
    verify_and_create_order tok pin now (.ok ⟨false, rem⟩) db =
      (if rem.getD 0 = 0 then
        (.error .attemptsExhausted,
         (db.modifySession (liveTok tok now)
           (fun x => { x with attempts := x.attempts + 1 })).deleteSession (liveTok tok now))
      else
        (.error (.invalidCode (rem.getD 0)),
         db.modifySession (liveTok tok now)
           (fun x => { x with attempts := x.attempts + 1 }))) := by
  unfold verify_and_create_order
  rw [hfind]
  simp [hv]

/-- Computation of the confirm endpoint on a live unverified session when
the provider reports the code as verified. -/
theorem verify_ok_eq {tok pin : String} {now : ℕ} {res : VerifyPinResult}
    {db : DB} {s : VerificationSession}
    (hfind : get_current_session db tok now = some s) (hv : s.verified = false)
    (hres : res.verified = true) :
    verify_and_create_order tok pin now (.ok res) db =
      (.ok (materialize db s now),
       DB.deleteSession
         { db with orders := db.orders ++ [materialize db s now]
                   nextOrderId := db.nextOrderId + 1 } (liveTok tok now)) := by
  unfold verify_and_create_order
  rw [hfind]
  simp [hv, hres]

/-- Inversion: a successful confirm call found a live unverified session,
got a verified answer from the provider, appended exactly one order built
from the session's intent, and deleted the session row. -/
theorem verify_ok_inv {tok pin : String} {now : ℕ} {resp : ProviderResp VerifyPinResult}
    {db db2 : DB} {o : Order}
    (h : verify_and_create_order tok pin now resp db = (.ok o, db2)) :
    ∃ s res, get_current_session db tok now = some s ∧ s.verified = false ∧
      resp = .ok res ∧ res.verified = true ∧ o = materialize db s now ∧
      db2 = DB.deleteSession
        { db with orders := db.orders ++ [o], nextOrderId := db.nextOrderId + 1 }
        (liveTok tok now) := by
  cases hfind : get_current_session db tok now with
  | none =>
    unfold verify_and_create_order at h
    rw [hfind] at h
    simp at h
  | some s =>
    cases hv : s.verified with
    | true =>
      unfold verify_and_create_order at h
      rw [hfind] at h
      simp [hv] at h
    | false =>
      cases resp with
      | error =>
        unfold verify_and_create_order at h
        rw [hfind] at h
        simp [hv] at h
      | ok res =>
        cases hres : res.verified with
        | false =>
          rw [show (ProviderResp.ok res : ProviderResp VerifyPinResult) =
                .ok ⟨false, res.attemptsRemaining⟩ by rw [← hres]] at h
          rw [verify_not_verified_eq tok pin now res.attemptsRemaining db s hfind hv] at h
          by_cases hrem : res.attemptsRemaining.getD 0 = 0
          · rw [if_pos hrem] at h; simp at h
          · rw [if_neg hrem] at h; simp at h
        | true =>
          rw [verify_ok_eq hfind hv hres] at h
          have ho : o = materialize db s now := by
            have := congrArg Prod.fst h
            simpa using this.symm
          have hdb : db2 = DB.deleteSession
              { db with orders := db.orders ++ [materialize db s now]
                        nextOrderId := db.nextOrderId + 1 } (liveTok tok now) := by
            have := congrArg Prod.snd h
            simpa using this.symm
          exact ⟨s, res, rfl, hv, rfl, hres, ho, by rw [ho]; exact hdb⟩

end BookOrder

namespace BookOrder

/-! ### Concrete scenarios used by counterexamples and witnesses -/

/-- A sample line item with an integral price. -/
def sampleBooks : List Book := [{ id := "b1", title := "Dune", price := 100, quantity := 2 }]

/-- A sample valid order request. -/
def sampleReq : OrderRequest :=
  { phone_number := "+8801234567", address := "12 Example Street",
    payment_method := .cash_on_delivery, books := sampleBooks }

/-- The empty store. -/
def st0 : DB := { sessions := [], orders := [], nextOrderId := 1 }

/-- Store after one successful `initiate` of `sampleReq` at time 0 with
token `t1` and provider pin id `p1`. -/
def stA : DB := (initiate_order sampleReq 0 (.ok ⟨some "p1"⟩) "t1" st0).2

/-- The session row `stA` contains. -/
def sessA : VerificationSession :=
  { session_token := "t1", phone_number := "+8801234567", pin_id := some "p1",
    attempts := 0, verified := false, expires_at := 600, created_at := 0,
    order_data :=
      { phone_number := "+8801234567", address := "12 Example Street",
        payment_method := .cash_on_delivery, books := sampleBooks,
        total_amount := orderTotal sampleBooks } }

/-- Store after confirming `t1` in `stA` successfully at time 5. -/
def stB : DB := (verify_and_create_order "t1" "1234" 5 (.ok ⟨true, some 2⟩) stA).2

/-- Price 10.5 (21/2), exactly representable as a Python float. -/
def halfPrice : ℚ := Rat.mk' 21 2

/-- A single line item with the non-integral price 10.5. -/
def cexBooks : List Book := [{ id := "b9", title := "Half", price := halfPrice, quantity := 1 }]

/-- A valid order request whose total 10.5 is not an integer. -/
def cexReq : OrderRequest :=
  { phone_number := "+8801234567", address := "12 Example Street",
    payment_method := .bkash, books := cexBooks }

/-- Store after one successful `initiate` of `cexReq` at time 0. -/
def stH : DB := (initiate_order cexReq 0 (.ok ⟨some "p1"⟩) "t1" st0).2

/-- Intent payload used to fill session rows whose content is irrelevant. -/
def dummyData : OrderData :=
  { phone_number := "+8801234567", address := "12 Example Street",
    payment_method := .cash_on_delivery, books := [], total_amount := 0 }

/-- A live session usable as bearer credential for phone `+8801234567`. -/
def authSession : VerificationSession :=
  { session_token := "tokA", phone_number := "+8801234567", pin_id := some "p",
    attempts := 0, verified := false, expires_at := 1000, created_at := 0,
    order_data := dummyData }

/-- A delivered order owned by `+8801234567`. -/
def deliveredOrder : Order :=
  { id := 1, phone_number := "+8801234567", address := "12 Example Street",
    payment_method := .cash_on_delivery, payment_status := "pending",
    book_list := [], total_amount := 100, order_status := .delivered,
    created_at := 0, updated_at := 0, verified := true }

/-- A verified order owned by `+8801234567`. -/
def verifiedOrder : Order :=
  { id := 2, phone_number := "+8801234567", address := "12 Example Street",
    payment_method := .cash_on_delivery, payment_status := "pending",
    book_list := [], total_amount := 100, order_status := .verified,
    created_at := 0, updated_at := 0, verified := true }

/-- An order owned by a different phone number. -/
def foreignOrder : Order :=
  { id := 7, phone_number := "+8809999999", address := "99 Other Road",
    payment_method := .card, payment_status := "pending",
    book_list := [], total_amount := 100, order_status := .verified,
    created_at := 0, updated_at := 0, verified := true }

/-- Store holding the bearer session and the three orders above. -/
def stS : DB :=
  { sessions := [authSession], orders := [deliveredOrder, verifiedOrder, foreignOrder],
    nextOrderId := 8 }

/-- An expired session (`expires_at = 10`) that was never deleted. -/
def sessExp : VerificationSession :=
  { session_token := "tE", phone_number := "+8801234567", pin_id := some "p",
    attempts := 1, verified := false, expires_at := 10, created_at := 0,
    order_data := dummyData }

/-- Store still holding the expired session row. -/
def stE : DB := { sessions := [sessExp], orders := [], nextOrderId := 1 }

/-- One `initiate` step of the rate-limit scenario: same request, time 0,
fresh token `k`. -/
def rlInit (k : String) (db : DB) : DB :=
  (initiate_order sampleReq 0 (.ok ⟨some "p"⟩) k db).2

/-- Store after five successful `initiate` calls for the same phone at time 0. -/
def st5 : DB := rlInit "t5" (rlInit "t4" (rlInit "t3" (rlInit "t2" (rlInit "t1" st0))))

/-- Store after additionally confirming token `t1` (which deletes its session
row and creates the one order). -/
def st5c : DB := (verify_and_create_order "t1" "1234" 0 (.ok ⟨true, some 2⟩) st5).2

end BookOrder

deriving instance DecidableEq for Except

namespace BookOrder

/-! ### C1 — double confirm -/

/-- Counterexample to C1 as stated: after `initiate` (state `stA`) the first
`confirm` of token `t1` succeeds and creates the order, but the second
`confirm` with the same token fails `SessionInvalid` (the session row was
deleted), not `AlreadyConsumed`; exactly one order exists after both calls. -/
theorem confirm_twice_cex :
    ((verify_and_create_order "t1" "1234" 5 (.ok ⟨true, some 2⟩) stA).1).map
        (fun o => o.order_status) = .ok .verified
    ∧ (verify_and_create_order "t1" "9999" 6 (.ok ⟨true, some 2⟩) stB).1
        = .error .sessionInvalid
    ∧ (Except.error .sessionInvalid : Except ApiError Order)
        ≠ .error .alreadyConsumed
    ∧ stB.orders.length = 1 :=
  ⟨rfl, rfl, by decide, rfl⟩

/-- C1 (amended): if `confirm` on a token succeeds from a store holding at
most one session row with that token, then every later `confirm` with the
same token fails `SessionInvalid` without touching the store, and the new
store's orders are exactly the old ones plus the one materialized order. -/
theorem confirm_twice_second_invalid (tok pin : String) (now : ℕ)
    (resp : ProviderResp VerifyPinResult) (db db2 : DB) (o : Order)
    (huniq : db.sessions.countP (fun x => decide (x.session_token = tok)) ≤ 1)
    (hsucc : verify_and_create_order tok pin now resp db = (.ok o, db2)) :
    (∀ pin2 now2 resp2,
      verify_and_create_order tok pin2 now2 resp2 db2 = (.error .sessionInvalid, db2))
    ∧ db2.orders = db.orders ++ [o] := by
  obtain ⟨s, res, hfind, hv, hr, hres, ho, hdb⟩ := verify_ok_inv hsucc
  obtain ⟨pre, post, hsplit, hpre⟩ := find_split hfind
  have hps : liveTok tok now s = true := List.find?_some hfind
  have hsess : db2.sessions = pre ++ post := by
    rw [hdb]
    show deleteFirst (liveTok tok now) db.sessions = pre ++ post
    rw [hsplit]
    exact deleteFirst_split _ pre post s hpre hps
  have htok : ∀ x ∈ db2.sessions, x.session_token ≠ tok := by
    rw [hsess]
    have hc : (pre ++ s :: post).countP (fun x => decide (x.session_token = tok)) ≤ 1 := by
      rw [← hsplit]; exact huniq
    have hs : (fun x : VerificationSession => decide (x.session_token = tok)) s = true :=
      decide_eq_true (of_decide_eq_true hps).1
    intro x hx
    exact of_decide_eq_false (countP_split hc hs x hx)
  refine ⟨fun pin2 now2 resp2 => second_confirm_invalid htok pin2 now2 resp2, ?_⟩
  rw [hdb, ho]
  rfl

/-- Witness for C1: the amended theorem applied to the concrete run
`stA` → `stB` of `confirm_twice_cex`. -/
theorem confirm_twice_second_invalid_w :
    (stA.sessions.countP (fun x => decide (x.session_token = "t1")) ≤ 1)
    ∧ verify_and_create_order "t1" "9998" 7 .error stB = (.error .sessionInvalid, stB)
    ∧ stB.orders = stA.orders ++ [materialize stA sessA 5] :=
  ⟨by decide,
   (confirm_twice_second_invalid "t1" "1234" 5 (.ok ⟨true, some 2⟩) stA stB
      (materialize stA sessA 5) (by decide) rfl).1 "9998" 7 .error,
   (confirm_twice_second_invalid "t1" "1234" 5 (.ok ⟨true, some 2⟩) stA stB
      (materialize stA sessA 5) (by decide) rfl).2⟩

end BookOrder

namespace BookOrder

/-! ### C4 — rate limiting -/

/-- Counterexample to C4 as stated: five sessions are created for the same
phone number at time 0 (so five sessions were created inside the trailing
hour, and the would-be sixth `initiate` is indeed rejected), but after one
of them is consumed by a successful `confirm` — which deletes its row — the
next `initiate` at the same instant succeeds, although the number of
sessions ever created in the window is still five. -/
theorem rate_limit_deleted_cex :
    st5.sessions.length = 5
    ∧ st5.sessions.all
        (fun s => decide (s.phone_number = sampleReq.phone_number ∧ s.created_at = 0)) = true
    ∧ (initiate_order sampleReq 0 (.ok ⟨some "p6"⟩) "t6" st5).1 = .error .rateLimited
    ∧ ((verify_and_create_order "t1" "1234" 0 (.ok ⟨true, some 2⟩) st5).1).map
        (fun o => o.order_status) = .ok .verified
    ∧ st5c.sessions.length = 4
    ∧ ((initiate_order sampleReq 0 (.ok ⟨some "p6"⟩) "t6" st5c).1).map
        (fun r => r.session_token) = .ok "t6" := by
  refine ⟨rfl, rfl, rfl, rfl, rfl, rfl⟩

/-- C4 (amended): `initiate` fails `RateLimited` exactly when at least five
session rows *currently present in the store* carry this phone number with
`created_at` inside the trailing one-hour window — consumed or otherwise
deleted sessions no longer count, expired-but-undeleted ones still do. -/
theorem rate_limit_iff_store_count (req : OrderRequest) (now : ℕ)
    (send : ProviderResp SendPinResult) (tok : String) (db : DB) :
    (initiate_order req now send tok db).1 = .error .rateLimited ↔
      5 ≤ recentSessionCount db req.phone_number now := by
  unfold initiate_order
  by_cases h : 5 ≤ recentSessionCount db req.phone_number now
  · simp [h]
  · rw [if_neg h]
    cases send with
    | error => simp [h]
    | ok sms =>
      cases sms with
      | mk pinId => cases pinId <;> simp [h]

end BookOrder

namespace BookOrder

/-! ### C5 — totals through initiate and confirm -/

theorem find_append_singleton {α} {p : α → Bool} {l : List α} {a : α}
    (hl : ∀ x ∈ l, p x = false) (ha : p a = true) :
    (l ++ [a]).find? p = some a := by
  induction l with
  | nil => simp [List.find?, ha]
  | cons x xs ih =>
    rw [List.cons_append, List.find?, hl x (by simp)]
    exact ih (fun y hy => hl y (by simp [hy]))

/-- Counterexample to C5 as stated: for the request `cexReq` whose single
item costs 10.5, `initiate` returns the exact sum 10.5 and the confirmed
Order's stored total is `int(10.5) = 10`, which differs from
Σ(price×quantity) = 10.5. -/
theorem total_truncation_cex :
    (initiate_order cexReq 0 (.ok ⟨some "p1"⟩) "t1" st0).1
        = .ok ⟨"t1", 600, orderTotal cexBooks⟩
    ∧ ((verify_and_create_order "t1" "1234" 5 (.ok ⟨true, some 2⟩) stH).1).map
        (fun o => o.total_amount) = .ok (pyInt (orderTotal cexBooks))
    ∧ orderTotal cexBooks = halfPrice
    ∧ pyInt halfPrice = 10
    ∧ ((10 : ℤ) : ℚ) ≠ halfPrice :=
  ⟨rfl, rfl, by norm_num [orderTotal, cexBooks], by decide, by decide⟩

/-- C5 (amended): for every valid request, if the rate limit is not hit, the
provider delivers a pin id, and the fresh token collides with no stored
session, then `initiate` returns the exact (unrounded) total
Σ(price×quantity), and an immediate `confirm` that the provider answers as
verified yields an Order whose stored total is the integer truncation
`int(Σ)` of that sum, with order status `verified` and `verified = true`. -/
theorem initiate_confirm_total (req : OrderRequest) (now : ℕ) (tok pid pin : String)
    (res : VerifyPinResult) (db : DB)
    (hval : validRequest req = true)
    (hrate : recentSessionCount db req.phone_number now < 5)
    (hfresh : ∀ s ∈ db.sessions, s.session_token ≠ tok)
    (hres : res.verified = true) :
    (initiate_order req now (.ok ⟨some pid⟩) tok db).1
        = .ok ⟨tok, 600, orderTotal req.books⟩
    ∧ ((verify_and_create_order tok pin now (.ok res)
          (initiate_order req now (.ok ⟨some pid⟩) tok db).2).1).map
        (fun o => (o.total_amount, o.order_status, o.verified))
      = .ok (pyInt (orderTotal req.books), .verified, true) := by
  have hif : ¬ 5 ≤ recentSessionCount db req.phone_number now := by omega
  constructor
  · unfold initiate_order
    rw [if_neg hif]
  · have hdb1 : (initiate_order req now (.ok ⟨some pid⟩) tok db).2
        = { db with sessions := db.sessions ++
            [{ session_token := tok
               phone_number := req.phone_number
               pin_id := some pid
               attempts := 0
               verified := false
               expires_at := now + 600
               created_at := now
               order_data :=
                { phone_number := req.phone_number
                  address := req.address
                  payment_method := req.payment_method
                  books := req.books
                  total_amount := orderTotal req.books } }] } := by
      unfold initiate_order
      rw [if_neg hif]
    rw [hdb1]
    have hnone : ∀ x ∈ db.sessions, liveTok tok now x = false :=
      fun x hx => decide_eq_false (fun hc => hfresh x hx hc.1)
    have hfind : get_current_session
        { db with sessions := db.sessions ++
            [{ session_token := tok
               phone_number := req.phone_number
               pin_id := some pid
               attempts := 0
               verified := false
               expires_at := now + 600
               created_at := now
               order_data :=
                { phone_number := req.phone_number
                  address := req.address
                  payment_method := req.payment_method
                  books := req.books
                  total_amount := orderTotal req.books } }] } tok now
        = some { session_token := tok
                 phone_number := req.phone_number
                 pin_id := some pid
                 attempts := 0
                 verified := false
                 expires_at := now + 600
                 created_at := now
                 order_data :=
                  { phone_number := req.phone_number
                    address := req.address
                    payment_method := req.payment_method
                    books := req.books
                    total_amount := orderTotal req.books } } := by
      show (db.sessions ++ [_]).find? (liveTok tok now) = _
      exact find_append_singleton hnone
        (decide_eq_true ⟨rfl, Nat.lt_add_of_pos_right (by omega)⟩)
    rw [verify_ok_eq hfind rfl hres]
    rfl

/-- Witness for C5: the amended theorem applied to the valid request
`sampleReq` on the empty store. -/
theorem initiate_confirm_total_w :
    validRequest sampleReq = true
    ∧ ((verify_and_create_order "t1" "1234" 0 (.ok ⟨true, some 2⟩)
          (initiate_order sampleReq 0 (.ok ⟨some "p1"⟩) "t1" st0).2).1).map
        (fun o => (o.total_amount, o.order_status, o.verified))
      = .ok (pyInt (orderTotal sampleReq.books), .verified, true) :=
  ⟨by decide,
   (initiate_confirm_total sampleReq 0 "t1" "p1" "1234" ⟨true, some 2⟩ st0
      (by decide) (by decide) (by simp [st0]) rfl).2⟩

end BookOrder

namespace BookOrder

/-! ### C6 — provider failure leaves no partial state -/

/-- C6: if the rate limit is not hit, a provider failure (or a success
body without a pin id) makes `initiate` fail `ProviderUnavailable` with the
store unchanged — no session row is created; and on a live unverified
session, a provider failure during `confirm` fails `ProviderUnavailable`
with the store unchanged — the session stays live, attempts untouched. -/
theorem provider_failure_no_state_change (req : OrderRequest) (now : ℕ)
    (tok pin : String) (db : DB) :
    (recentSessionCount db req.phone_number now < 5 →
      initiate_order req now .error tok db = (.error .providerUnavailable, db)
      ∧ initiate_order req now (.ok ⟨none⟩) tok db = (.error .providerUnavailable, db))
    ∧ (∀ s, get_current_session db tok now = some s → s.verified = false →
        verify_and_create_order tok pin now .error db
          = (.error .providerUnavailable, db)) := by
  constructor
  · intro h
    have hif : ¬ 5 ≤ recentSessionCount db req.phone_number now := by omega
    constructor
    · unfold initiate_order
      rw [if_neg hif]
    · unfold initiate_order
      rw [if_neg hif]
  · intro s hfind hv
    unfold verify_and_create_order
    rw [hfind]
    simp [hv]

/-- Witness for C6 on the empty store and on the live session of `stA`. -/
theorem provider_failure_no_state_change_w :
    recentSessionCount st0 sampleReq.phone_number 0 < 5
    ∧ initiate_order sampleReq 0 .error "t1" st0 = (.error .providerUnavailable, st0)
    ∧ initiate_order sampleReq 0 (.ok ⟨none⟩) "t1" st0 = (.error .providerUnavailable, st0)
    ∧ verify_and_create_order "t1" "1234" 5 .error stA
        = (.error .providerUnavailable, stA) :=
  ⟨by decide,
   ((provider_failure_no_state_change sampleReq 0 "t1" "1234" st0).1 (by decide)).1,
   ((provider_failure_no_state_change sampleReq 0 "t1" "1234" st0).1 (by decide)).2,
   (provider_failure_no_state_change sampleReq 5 "t1" "1234" stA).2 sessA rfl rfl⟩

/-! ### C7 — expired sessions are inert -/

/-- C7: when every stored session row carrying the token has already
expired (and at least one such never-deleted row exists), both `confirm`
and `resendCode` fail `SessionInvalid` and leave the store untouched. -/
theorem expired_session_invalid (db : DB) (tok pin : String) (now : ℕ)
    (send : ProviderResp SendPinResult) (resp : ProviderResp VerifyPinResult)
    (hexp : ∀ s ∈ db.sessions, s.session_token = tok → s.expires_at ≤ now)
    (hex : ∃ s ∈ db.sessions, s.session_token = tok) :
    verify_and_create_order tok pin now resp db = (.error .sessionInvalid, db)
    ∧ resend_verification_code tok now send db = (.error .sessionInvalid, db) := by
  have hnone : get_current_session db tok now = none := by
    apply find_none
    intro x hx
    exact decide_eq_false (fun hc => absurd (hexp x hx hc.1) (not_le.mpr hc.2))
  constructor
  · unfold verify_and_create_order
    rw [hnone]
  · unfold resend_verification_code
    rw [hnone]

/-- Witness for C7: the expired-but-never-deleted session row of `stE`
at time 11. -/
theorem expired_session_invalid_w :
    (∃ s ∈ stE.sessions, s.session_token = "tE")
    ∧ verify_and_create_order "tE" "1234" 11 (.ok ⟨true, some 2⟩) stE
        = (.error .sessionInvalid, stE)
    ∧ resend_verification_code "tE" 11 (.ok ⟨some "p9"⟩) stE
        = (.error .sessionInvalid, stE) :=
  ⟨by decide,
   (expired_session_invalid stE "tE" "1234" 11 (.ok ⟨some "p9"⟩) (.ok ⟨true, some 2⟩)
      (by decide) (by decide)).1,
   (expired_session_invalid stE "tE" "1234" 11 (.ok ⟨some "p9"⟩) (.ok ⟨true, some 2⟩)
      (by decide) (by decide)).2⟩

end BookOrder

namespace BookOrder

/-! ### C8 — wrong-code bookkeeping -/

/-- C8: on a live unverified session (unique holder of its token), a
not-verified provider answer increments `attempts`; when the
provider-reported remaining attempts (defaulted to 0) reach 0 the session
row is deleted and the call fails `AttemptsExhausted`, so every subsequent
`confirm` on that token fails `SessionInvalid`; otherwise the call fails
`InvalidCode` carrying the remaining-attempts count, with the session kept
and its `attempts` bumped by one. -/
theorem wrong_code_bookkeeping (db : DB) (tok pin : String) (now : ℕ)
    (rem : Option ℕ) (s : VerificationSession)
    (hfind : get_current_session db tok now = some s)
    (hv : s.verified = false)
    (huniq : db.sessions.countP (fun x => decide (x.session_token = tok)) ≤ 1) :
    (rem.getD 0 = 0 →
      (verify_and_create_order tok pin now (.ok ⟨false, rem⟩) db).1
          = .error .attemptsExhausted
      ∧ ∀ pin2 now2 resp2,
          verify_and_create_order tok pin2 now2 resp2
              (verify_and_create_order tok pin now (.ok ⟨false, rem⟩) db).2
            = (.error .sessionInvalid,
               (verify_and_create_order tok pin now (.ok ⟨false, rem⟩) db).2))
    ∧ (rem.getD 0 ≠ 0 →
      (verify_and_create_order tok pin now (.ok ⟨false, rem⟩) db).1
          = .error (.invalidCode (rem.getD 0))
      ∧ ∃ pre post, db.sessions = pre ++ s :: post
          ∧ (verify_and_create_order tok pin now (.ok ⟨false, rem⟩) db).2.sessions
            = pre ++ ({ s with attempts := s.attempts + 1 }) :: post) := by
  have heq := verify_not_verified_eq tok pin now rem db s hfind hv
  obtain ⟨pre, post, hsplit, hpre⟩ := find_split hfind
  have hps : liveTok tok now s = true := List.find?_some hfind
  have hmod : modifyFirst (liveTok tok now)
      (fun x => { x with attempts := x.attempts + 1 }) db.sessions
      = pre ++ ({ s with attempts := s.attempts + 1 }) :: post := by
    rw [hsplit]
    exact modifyFirst_split _ _ pre post s hpre hps
  constructor
  · intro hrem
    rw [heq, if_pos hrem]
    refine ⟨rfl, ?_⟩
    have hdel : deleteFirst (liveTok tok now)
        (modifyFirst (liveTok tok now)
          (fun x => { x with attempts := x.attempts + 1 }) db.sessions)
        = pre ++ post := by
      rw [hmod]
      exact deleteFirst_split _ pre post _ hpre hps
    have htok : ∀ x ∈ pre ++ post, x.session_token ≠ tok := by
      have hc : (pre ++ s :: post).countP
          (fun x => decide (x.session_token = tok)) ≤ 1 := by
        rw [← hsplit]; exact huniq
      have hs : (fun x : VerificationSession => decide (x.session_token = tok)) s = true :=
        decide_eq_true (of_decide_eq_true hps).1
      intro x hx
      exact of_decide_eq_false (countP_split hc hs x hx)
    intro pin2 now2 resp2
    apply second_confirm_invalid
    show ∀ x ∈ deleteFirst (liveTok tok now)
        (modifyFirst (liveTok tok now)
          (fun x => { x with attempts := x.attempts + 1 }) db.sessions),
      x.session_token ≠ tok
    rw [hdel]
    exact htok
  · intro hrem
    rw [heq, if_neg hrem]
    exact ⟨rfl, pre, post, hsplit, hmod⟩

/-- Witness for C8 at the live session of `stA` with two attempts left. -/
theorem wrong_code_bookkeeping_w :
    (verify_and_create_order "t1" "1234" 5 (.ok ⟨false, some 2⟩) stA).1
      = .error (.invalidCode 2) :=
  ((wrong_code_bookkeeping stA "t1" "1234" 5 (some 2) sessA rfl rfl (by decide)).2
    (by decide)).1

/-! ### C10 — InvalidCode mutates only the attempt counter -/

/-- C10: when the provider reports the code as not verified with a nonzero
remaining-attempts count, `confirm` fails `InvalidCode` and the only change
to the store is that the found session's `attempts` grows by exactly one:
its token, phone number, pin id, verified flag, expiry, creation time and
captured intent are unchanged, every other session row is untouched, and
no order is created. -/
theorem invalid_code_frame (db : DB) (tok pin : String) (now : ℕ)
    (rem : Option ℕ) (n : ℕ) (s : VerificationSession)
    (hfind : get_current_session db tok now = some s)
    (hv : s.verified = false)
    (hrem : rem.getD 0 = n) (hn : n ≠ 0) :
    (verify_and_create_order tok pin now (.ok ⟨false, rem⟩) db).1
        = .error (.invalidCode n)
    ∧ (verify_and_create_order tok pin now (.ok ⟨false, rem⟩) db).2.orders = db.orders
    ∧ (verify_and_create_order tok pin now (.ok ⟨false, rem⟩) db).2.nextOrderId
        = db.nextOrderId
    ∧ (∃ pre post, db.sessions = pre ++ s :: post
        ∧ (verify_and_create_order tok pin now (.ok ⟨false, rem⟩) db).2.sessions
          = pre ++ ({ s with attempts := s.attempts + 1 }) :: post)
    ∧ ({ s with attempts := s.attempts + 1 }).session_token = s.session_token
    ∧ ({ s with attempts := s.attempts + 1 }).phone_number = s.phone_number
    ∧ ({ s with attempts := s.attempts + 1 }).pin_id = s.pin_id
    ∧ ({ s with attempts := s.attempts + 1 }).verified = s.verified
    ∧ ({ s with attempts := s.attempts + 1 }).expires_at = s.expires_at
    ∧ ({ s with attempts := s.attempts + 1 }).created_at = s.created_at
    ∧ ({ s with attempts := s.attempts + 1 }).order_data = s.order_data
    ∧ ({ s with attempts := s.attempts + 1 }).attempts = s.attempts + 1 := by
  subst hrem
  have heq := verify_not_verified_eq tok pin now rem db s hfind hv
  obtain ⟨pre, post, hsplit, hpre⟩ := find_split hfind
  have hps : liveTok tok now s = true := List.find?_some hfind
  have hmod : modifyFirst (liveTok tok now)
      (fun x => { x with attempts := x.attempts + 1 }) db.sessions
      = pre ++ ({ s with attempts := s.attempts + 1 }) :: post := by
    rw [hsplit]
    exact modifyFirst_split _ _ pre post s hpre hps
  rw [heq, if_neg hn]
  exact ⟨rfl, rfl, rfl, ⟨pre, post, hsplit, hmod⟩,
    rfl, rfl, rfl, rfl, rfl, rfl, rfl, rfl⟩

/-- Witness for C10 at the live session of `stA` with three attempts left. -/
theorem invalid_code_frame_w :
    (verify_and_create_order "t1" "5678" 5 (.ok ⟨false, some 3⟩) stA).1
        = .error (.invalidCode 3)
    ∧ (verify_and_create_order "t1" "5678" 5 (.ok ⟨false, some 3⟩) stA).2.orders
        = stA.orders :=
  ⟨(invalid_code_frame stA "t1" "5678" 5 (some 3) 3 sessA rfl rfl rfl (by decide)).1,
   (invalid_code_frame stA "t1" "5678" 5 (some 3) 3 sessA rfl rfl rfl (by decide)).2.1⟩

end BookOrder

namespace BookOrder

/-! ### C2 — status transition table (shadowing bug) -/

/-- C2: the allowed transitions match the table (a request in the table
succeeds, e.g. verified→processing, and cancellation is rejected exactly
on shipped/delivered orders), but a request outside the table does not
produce the intended `InvalidTransition` error naming the states: the
raise itself crashes with `AttributeError` (HTTP 500, `internalError`)
because the `status` parameter shadows the fastapi `status` module —
shown here on `delivered → processing`.  The store is still unchanged. -/
theorem status_transition_bug :
    (update_order_status 1 .processing "tokA" 10 stS).1 = .error .internalError
    ∧ (Except.error .internalError : Except ApiError Unit)
        ≠ .error (.invalidTransition .delivered .processing)
    ∧ (update_order_status 1 .processing "tokA" 10 stS).2 = stS
    ∧ (update_order_status 2 .processing "tokA" 10 stS).1 = .ok ()
    ∧ (claimedAllowed OrderStatus.verified OrderStatus.processing = true
        ∧ claimedAllowed OrderStatus.delivered OrderStatus.processing = false)
    ∧ (cancel_order 1 "tokA" 10 stS).1 = .error .cannotCancel
    ∧ (cancel_order 2 "tokA" 10 stS).1 = .ok () :=
  ⟨rfl, by decide, rfl, rfl, ⟨rfl, rfl⟩, rfl, rfl⟩

/-! ### C3 — authorization boundary (shadowing bug) -/

/-- C3: a `setOrderStatus` call whose live bearer session's phone number
does not match the order's (order 7 belongs to another number) does fail
and leaves the store unchanged, but with the unhandled `AttributeError`
(HTTP 500, `internalError`) caused by the `status` parameter shadowing the
fastapi `status` module — not with `SessionInvalid` or
`NotFoundOrUnauthorized` as claimed; `cancelOrder`, which has no such
shadowing, answers `NotFoundOrUnauthorized` as claimed, and a missing
token yields `SessionInvalid`. -/
theorem mutation_auth_bug :
    (update_order_status 7 .processing "tokA" 10 stS).1 = .error .internalError
    ∧ (Except.error .internalError : Except ApiError Unit) ≠ .error .sessionInvalid
    ∧ (Except.error .internalError : Except ApiError Unit) ≠ .error .notFoundOrUnauthorized
    ∧ (update_order_status 7 .processing "tokA" 10 stS).2 = stS
    ∧ (cancel_order 7 "tokA" 10 stS).1 = .error .notFoundOrUnauthorized
    ∧ (cancel_order 7 "tokA" 10 stS).2 = stS
    ∧ (update_order_status 2 .processing "nosuch" 10 stS)
        = (.error .sessionInvalid, stS) :=
  ⟨rfl, by decide, by decide, rfl, rfl, rfl, rfl⟩

end BookOrder
